import Mathlib

/-!
Shallow embedding of the BASE ORM core (query builder in `base/query.py`,
lookup/operator helpers in `base/utils.py`, migration engine in
`base/migrations.py`), together with theorems settling the specification
claims about it.

Python values flowing through the query builder are modelled by the
inductive `Value`; SQL statements are plain strings; the database engine
behind a connection is abstracted as a function from statements to row
lists, so theorems quantify over every possible engine behaviour.
-/

/-- A Python value as it appears in query-builder parameters: `None`,
booleans, integers, strings, and lists/tuples of values. -/
inductive Value where
  | null : Value
  | bool (b : Bool) : Value
  | int (n : Int) : Value
  | str (s : String) : Value
  | list (l : List Value) : Value

/-- Python truthiness (`if value:`) for a `Value`. -/
def pyTruthy : Value → Bool
  | Value.null => false
  | Value.bool b => b
  | Value.int n => n != 0
  | Value.str s => s != ""
  | Value.list l => !l.isEmpty

mutual
/-- Python `str()` of a value, as used by f-string interpolation in
`format_value_for_operator` (list elements rendered without quoting, a
harmless approximation of `repr`; the source only interpolates the text
operators' values, which are strings in practice). -/
def pyStr : Value → String
  | Value.null => "None"
  | Value.bool b => if b then "True" else "False"
  | Value.int n => toString n
  | Value.str s => s
  | Value.list l => "[" ++ ", ".intercalate (pyStrList l) ++ "]"

def pyStrList : List Value → List String
  | [] => []
  | v :: vs => pyStr v :: pyStrList vs
end

/-- Elements obtained by iterating a Python value (`len(value)` /
`params.extend(value)` in the source): a list yields its items, a string
its characters. Iterating any other value raises `TypeError` in Python,
so the catch-all branch is unreachable in the source; the theorems about
`in`/`range` lookups carry an iterability hypothesis excluding it. -/
def valueElems : Value → List Value
  | Value.list l => l
  | Value.str s => s.data.map (fun c => Value.str (String.mk [c]))
  | _ => []

/-- Whether iterating the value is defined in Python (list or string). -/
def isIterable : Value → Bool
  | Value.list _ => true
  | Value.str _ => true
  | _ => false

/-- Python's `sep.join(items)`. -/
def pyJoin (sep : String) : List String → String
  | [] => ""
  | [s] => s
  | s :: ss => s ++ sep ++ pyJoin sep ss

/-- Python's `s.startswith(pre)`. -/
def pyStartswith (s pre : String) : Bool :=
  pre.data.isPrefixOf s.data

/-- Python's `s[1:]`. -/
def pyDrop1 (s : String) : String :=
  String.mk (s.data.drop 1)

/-- `utils.parse_lookup`: split a lookup such as `age__gt` into
`(field, operator)`; without a `__` separator the operator defaults to
`exact`, and with several separators all but the last segment are
rejoined as the field path. -/
def parse_lookup (lookup : String) : String × String :=
  let parts := lookup.splitOn "__"
  match parts with
  | [] => (lookup, "exact")
  | [_] => (lookup, "exact")
  | p :: q :: rest =>
      (pyJoin "__" ((p :: q :: rest).dropLast),
       (p :: q :: rest).getLast (by simp))

/-- The `operators` dictionary of `utils.get_operator_sql`. -/
def operatorsTable : List (String × String) :=
  [("exact", "="), ("gt", ">"), ("gte", ">="), ("lt", "<"), ("lte", "<="),
   ("ne", "!="), ("in", "IN"), ("contains", "LIKE"), ("icontains", "LIKE"),
   ("startswith", "LIKE"), ("istartswith", "LIKE"), ("endswith", "LIKE"),
   ("iendswith", "LIKE"), ("isnull", "IS NULL"), ("range", "BETWEEN")]

/-- `utils.get_operator_sql`: lookup operator to SQL comparator via
`operators.get(operator, '=')`, with the deliberate fallback to equality
for unknown operators. -/
def get_operator_sql (operator : String) : String :=
  match operatorsTable.find? (fun kv => kv.1 == operator) with
  | some kv => kv.2
  | none => "="

/-- `utils.format_value_for_operator`: wrap text-search values in SQL
wildcards; every other operator passes the value through unchanged. -/
def format_value_for_operator (value : Value) (operator : String) : Value :=
  if operator = "contains" ∨ operator = "icontains" then
    Value.str ("%" ++ pyStr value ++ "%")
  else if operator = "startswith" ∨ operator = "istartswith" then
    Value.str (pyStr value ++ "%")
  else if operator = "endswith" ∨ operator = "iendswith" then
    Value.str ("%" ++ pyStr value)
  else value

/-- A database row: association list from column name to value
(`sqlite3.Row` addressable by column name). -/
abbrev Row := List (String × Value)

/-- The slice of a model class that the query builder reads: the class
name, the derived table name, and the declared fields as
`(attribute name, database column)` pairs. Field-type conversion
(`Field.to_python`) is outside the modelled core (spec §1 excludes the
field-type system), so column values are taken as already converted. -/
structure ModelDesc where
  name : String
  _table_name : String
  fields : List (String × String)

/-- The state of `query.QuerySet` (`__init__`), including the per-instance
result cache. -/
structure QuerySet where
  model : ModelDesc
  _filters : List (String × String × Value) := []
  _excludes : List (String × String × Value) := []
  _order_by : List String := []
  _limit : Option Int := none
  _offset : Option Int := none
  _select_related : List String := []
  _distinct : Bool := false
  _values_fields : Option (List String) := none
  _cache : Option (List Row) := none

/-- `QuerySet._clone`: a fresh `QuerySet` carrying copies of every state
field; the fresh instance's `_cache` is the `__init__` default `None`
(clones never inherit the cache). -/
def QuerySet._clone (qs : QuerySet) : QuerySet :=
  { model := qs.model
    _filters := qs._filters
    _excludes := qs._excludes
    _order_by := qs._order_by
    _limit := qs._limit
    _offset := qs._offset
    _select_related := qs._select_related
    _distinct := qs._distinct
    _values_fields := qs._values_fields }

/-- `QuerySet.filter`: clone, then append one parsed
`(field, operator, value)` triple per keyword argument. Keyword
arguments are modelled as the ordered list `kwargs`. -/
def QuerySet.filter (qs : QuerySet) (kwargs : List (String × Value)) : QuerySet :=
  let qs' := qs._clone
  { qs' with
    _filters := qs'._filters ++ kwargs.map (fun kv =>
      ((parse_lookup kv.1).1, (parse_lookup kv.1).2, kv.2)) }

/-- `QuerySet.exclude`: clone, then append parsed triples to the
exclusion list. -/
def QuerySet.exclude (qs : QuerySet) (kwargs : List (String × Value)) : QuerySet :=
  let qs' := qs._clone
  { qs' with
    _excludes := qs'._excludes ++ kwargs.map (fun kv =>
      ((parse_lookup kv.1).1, (parse_lookup kv.1).2, kv.2)) }

/-- `QuerySet.order_by`: clone with the ordering list replaced. -/
def QuerySet.order_by (qs : QuerySet) (fields : List String) : QuerySet :=
  { qs._clone with _order_by := fields }

/-- `QuerySet.limit`. -/
def QuerySet.limit (qs : QuerySet) (n : Int) : QuerySet :=
  { qs._clone with _limit := some n }

/-- `QuerySet.offset`. -/
def QuerySet.offset (qs : QuerySet) (n : Int) : QuerySet :=
  { qs._clone with _offset := some n }

/-- `QuerySet.distinct`. -/
def QuerySet.distinct (qs : QuerySet) : QuerySet :=
  { qs._clone with _distinct := true }

/-- `QuerySet.values`: `list(fields) if fields else None`. -/
def QuerySet.values (qs : QuerySet) (fields : List String) : QuerySet :=
  { qs._clone with _values_fields := if fields.isEmpty then none else some fields }

/-- `QuerySet.select_related`: clone, extending the related-field list. -/
def QuerySet.select_related (qs : QuerySet) (fields : List String) : QuerySet :=
  { qs._clone with _select_related := qs._select_related ++ fields }

/-- The comma-joined placeholder list `','.join('?' * len(value))`. -/
def placeholdersFor (n : Nat) : String :=
  pyJoin "," (List.replicate n "?")

/-- One iteration of the filter loop in `QuerySet._build_where_clause`:
the condition string and the parameters this filter triple contributes. -/
def filterCondition : String × String × Value → String × List Value
  | (field_name, operator, value) =>
    let sql_op := get_operator_sql operator
    if operator = "isnull" then
      if pyTruthy value then (field_name ++ " IS NULL", [])
      else (field_name ++ " IS NOT NULL", [])
    else if operator = "in" then
      let placeholders := placeholdersFor (valueElems value).length
      (field_name ++ " " ++ sql_op ++ " (" ++ placeholders ++ ")", valueElems value)
    else if operator = "range" then
      (field_name ++ " BETWEEN ? AND ?", valueElems value)
    else
      (field_name ++ " " ++ sql_op ++ " ?", [format_value_for_operator value operator])

/-- One iteration of the exclusion loop in `QuerySet._build_where_clause`:
`isnull` flips the NULL test, `in` inverts the comparator to `NOT IN`,
and every other operator wraps the comparison in a generic `NOT (...)`. -/
def excludeCondition : String × String × Value → String × List Value
  | (field_name, operator, value) =>
    let sql_op := get_operator_sql operator
    if operator = "isnull" then
      if pyTruthy value then (field_name ++ " IS NOT NULL", [])
      else (field_name ++ " IS NULL", [])
    else if operator = "in" then
      let placeholders := placeholdersFor (valueElems value).length
      (field_name ++ " NOT " ++ sql_op ++ " (" ++ placeholders ++ ")", valueElems value)
    else
      ("NOT (" ++ field_name ++ " " ++ get_operator_sql operator ++ " ?)",
       [format_value_for_operator value operator])

/-- The accumulation loop of `_build_where_clause`: conditions are
collected in order, and each triple's parameters are appended. -/
def buildConditions (build : String × String × Value → String × List Value) :
    List (String × String × Value) → List String × List Value
  | [] => ([], [])
  | t :: ts =>
    ((build t).1 :: (buildConditions build ts).1,
     (build t).2 ++ (buildConditions build ts).2)

/-- `QuerySet._build_where_clause`: filter conditions first, then
exclusion conditions, AND-joined; returns `("", params)` when no
condition exists. -/
def QuerySet._build_where_clause (qs : QuerySet) : String × List Value :=
  let fpart := buildConditions filterCondition qs._filters
  let epart := buildConditions excludeCondition qs._excludes
  let conditions := fpart.1 ++ epart.1
  let params := fpart.2 ++ epart.2
  if conditions.isEmpty then ("", params)
  else (" WHERE " ++ pyJoin " AND " conditions, params)

/-- The `SELECT` field list of `_build_sql`: the projection fields when
`values(...)` chose a non-empty list (Python truthiness), else `*`. -/
def QuerySet.select_fields (qs : QuerySet) : String :=
  match qs._values_fields with
  | some (f :: fs) => pyJoin ", " (f :: fs)
  | _ => "*"

/-- The `ORDER BY` rendering of one ordering entry: a leading `-` means
descending. -/
def orderPart (field : String) : String :=
  if pyStartswith field "-" then pyDrop1 field ++ " DESC" else field ++ " ASC"

/-- The `ORDER BY` clause appended by `_build_sql` (empty when no
ordering is set). -/
def QuerySet.orderClause (qs : QuerySet) : String :=
  if qs._order_by.isEmpty then ""
  else " ORDER BY " ++ pyJoin ", " (qs._order_by.map orderPart)

/-- The `LIMIT`/`OFFSET` suffix appended by `_build_sql`. -/
def QuerySet.pagingClause (qs : QuerySet) : String :=
  (match qs._limit with
   | some n => " LIMIT " ++ toString n
   | none => "") ++
  (match qs._offset with
   | some n => " OFFSET " ++ toString n
   | none => "")

/-- `QuerySet._build_sql`: projection (with optional `DISTINCT`), `FROM`,
`WHERE`, `ORDER BY`, then `LIMIT`/`OFFSET`; the parameters are exactly
the where-clause parameters. -/
def QuerySet._build_sql (qs : QuerySet) : String × List Value :=
  let table_name := qs.model._table_name
  let head :=
    if qs._distinct then "SELECT DISTINCT " ++ qs.select_fields ++ " FROM " ++ table_name
    else "SELECT " ++ qs.select_fields ++ " FROM " ++ table_name
  (head ++ qs._build_where_clause.1 ++ qs.orderClause ++ qs.pagingClause,
   qs._build_where_clause.2)

/-- An abstract database engine behind the connection: maps an executed
statement and its parameters to the rows the cursor yields. -/
abbrev Engine := String → List Value → List Row

/-- `QuerySet._execute`: return the cached rows if present, otherwise run
the built SQL through the engine. (The write-back into `_cache` is a
benign memoization of the same row list.) -/
def QuerySet._execute (qs : QuerySet) (engine : Engine) : List Row :=
  match qs._cache with
  | some rows => rows
  | none => engine qs._build_sql.1 qs._build_sql.2

/-- `QuerySet._create_instance`: under an active `values(...)` projection
the row dictionary itself is returned; otherwise the declared fields are
mapped over the row's columns (column values taken as already
converted, see `ModelDesc`). -/
def QuerySet._create_instance (qs : QuerySet) (row : Row) : Row :=
  match qs._values_fields with
  | some (_ :: _) => row
  | _ => qs.model.fields.filterMap (fun fld =>
      match row.find? (fun col => col.1 = fld.2) with
      | some col => some (fld.1, col.2)
      | none => none)

/-- `QuerySet.all`. -/
def QuerySet.all (qs : QuerySet) (engine : Engine) : List Row :=
  (qs._execute engine).map qs._create_instance

/-- The error taxonomy of `base/exceptions.py` that the modelled core
raises. -/
inductive OrmError where
  | doesNotExist (msg : String) : OrmError
  | multipleObjectsReturned (msg : String) : OrmError
  | queryError (msg : String) : OrmError
  | migrationError (msg : String) : OrmError

/-- `QuerySet.get`: filter by the lookups, then demand exactly one
result, raising `DoesNotExist` on zero rows and
`MultipleObjectsReturned` on several. -/
def QuerySet.get (qs : QuerySet) (kwargs : List (String × Value)) (engine : Engine) :
    Except OrmError Row :=
  let results := (qs.filter kwargs).all engine
  if results.length = 0 then
    Except.error (OrmError.doesNotExist (qs.model.name ++ " matching query does not exist"))
  else if results.length > 1 then
    Except.error (OrmError.multipleObjectsReturned
      ("get() returned " ++ toString results.length ++ " " ++ qs.model.name ++ " objects"))
  else
    Except.ok (results.headI)

/-- `QuerySet.first`: clone with limit 1 and take the head row. -/
def QuerySet.first (qs : QuerySet) (engine : Engine) : Option Row :=
  ((qs.limit 1).all engine).head?

/-- The flipped ordering `last` derives: every direction of the current
ordering (or of `['id']` when none is set) is reversed. -/
def lastOrdering (order : List String) : List String :=
  (if order.isEmpty then ["id"] else order).map (fun f =>
    if pyStartswith f "-" then pyDrop1 f else "-" ++ f)

/-- `QuerySet.last`: re-order with every direction flipped, limit 1, and
take the head row. -/
def QuerySet.last (qs : QuerySet) (engine : Engine) : Option Row :=
  (((qs.order_by (lastOrdering qs._order_by)).limit 1).all engine).head?

/-- The statement `first()` executes (a fresh clone, so the cache is
bypassed): the builder's SQL with limit 1. -/
def QuerySet.firstStmt (qs : QuerySet) : String × List Value :=
  (qs.limit 1)._build_sql

/-- The statement `last()` executes: the builder's SQL with every
ordering direction flipped and limit 1. -/
def QuerySet.lastStmt (qs : QuerySet) : String × List Value :=
  ((qs.order_by (lastOrdering qs._order_by)).limit 1)._build_sql

/-- Python's `s.replace(old, new, 1)` on character lists: replace the
first occurrence of `pat`. -/
def listReplaceFirst (pat sub : List Char) : List Char → List Char
  | [] => []
  | c :: cs =>
    if pat.isPrefixOf (c :: cs) then sub ++ (c :: cs).drop pat.length
    else c :: listReplaceFirst pat sub cs

/-- Python's `s.replace(old, new, 1)`. -/
def pyReplaceFirst (s old new : String) : String :=
  String.mk (listReplaceFirst old.data new.data s.data)

/-- The statement text `exists()` executes: the built SQL with the first
occurrence of the literal `SELECT *` replaced by `SELECT 1`. -/
def QuerySet.existsSql (qs : QuerySet) : String :=
  pyReplaceFirst qs._build_sql.1 "SELECT *" "SELECT 1"

/-- `QuerySet.exists`: run the rewritten statement with the built
parameters and test whether `fetchone()` finds a row. -/
def QuerySet.exists? (qs : QuerySet) (engine : Engine) : Bool :=
  !(engine qs.existsSql qs._build_sql.2).isEmpty

/-- The statement `count()` executes: `SELECT COUNT(*)` plus only the
where clause, with the where-clause parameters. -/
def QuerySet.countStmt (qs : QuerySet) : String × List Value :=
  ("SELECT COUNT(*) FROM " ++ qs.model._table_name ++ qs._build_where_clause.1,
   qs._build_where_clause.2)

/-- `QuerySet.count`: run the counting statement and return
`fetchone()[0]` (the branches for a rowless or columnless cursor result
are unreachable for a `COUNT(*)` query). -/
def QuerySet.count (qs : QuerySet) (engine : Engine) : Value :=
  match engine qs.countStmt.1 qs.countStmt.2 with
  | (c :: _) :: _ => c.2
  | _ => Value.null

/-- `QuerySet.__len__` delegates to `count()`. -/
def QuerySet.len (qs : QuerySet) (engine : Engine) : Value :=
  qs.count engine

/-- What a connection has been asked to run: the execution log entries
visible to the engine. -/
inductive LogEntry where
  | exec (sql : String) (params : List Value) : LogEntry
  | commit : LogEntry

/-- `QuerySet.delete`: guard against an unfiltered delete with
`QueryError` before any statement reaches the connection; otherwise
execute the `DELETE` with the built where clause, commit, and return the
cursor's rowcount. The connection is modelled by its execution log plus
an abstract rowcount oracle. -/
def QuerySet.delete (qs : QuerySet) (log : List LogEntry)
    (rowcount : String → List Value → Int) :
    Except OrmError (List LogEntry × Int) :=
  let table_name := qs.model._table_name
  let where_clause := qs._build_where_clause.1
  let params := qs._build_where_clause.2
  if where_clause = "" then
    Except.error (OrmError.queryError
      "Cannot delete without filters (use Model.objects.all().delete())")
  else
    let sql := "DELETE FROM " ++ table_name ++ where_clause
    Except.ok (log ++ [LogEntry.exec sql params, LogEntry.commit], rowcount sql params)

/-! ## Migration engine (`base/migrations.py`) -/

/-- The migration operation variants. -/
inductive MOperation where
  | createTable (table_name : String) (fields : List (String × String)) : MOperation
  | dropTable (table_name : String) : MOperation
  | addColumn (table_name : String) (column_name : String) (column_definition : String) :
      MOperation

/-- The DDL statement `Operation.apply` sends to the connection. -/
def MOperation.applySql : MOperation → String
  | MOperation.createTable table_name fields =>
      "CREATE TABLE IF NOT EXISTS " ++ table_name ++ " (" ++
        pyJoin ", " (fields.map (fun fld => fld.1 ++ " " ++ fld.2)) ++ ")"
  | MOperation.dropTable table_name =>
      "DROP TABLE IF EXISTS " ++ table_name
  | MOperation.addColumn table_name column_name column_definition =>
      "ALTER TABLE " ++ table_name ++ " ADD COLUMN " ++ column_name ++ " " ++
        column_definition

/-- An abstract schema engine: executing a DDL statement transforms the
database state or fails (e.g. `ALTER TABLE` against a duplicate
column). -/
abbrev SchemaEngine (Db : Type) := String → Db → Except String Db

/-- `Operation.apply`: execute the operation's statement. -/
def MOperation.apply {Db : Type} (engine : SchemaEngine Db) (op : MOperation) (db : Db) :
    Except String Db :=
  engine op.applySql db

/-- `Operation.reverse`: `CreateTable` drops its table; `DropTable` and
`AddColumn` raise `MigrationError` before anything reaches the
connection. -/
def MOperation.reverseRun {Db : Type} (engine : SchemaEngine Db) (op : MOperation)
    (db : Db) : Except OrmError Db :=
  match op with
  | MOperation.createTable table_name _ =>
      match engine ("DROP TABLE IF EXISTS " ++ table_name) db with
      | Except.ok db' => Except.ok db'
      | Except.error e => Except.error (OrmError.migrationError e)
  | MOperation.dropTable _ =>
      Except.error (OrmError.migrationError
        "Cannot reverse DropTable operation without schema backup")
  | MOperation.addColumn _ _ _ =>
      Except.error (OrmError.migrationError
        "Cannot reverse AddColumn - SQLite limitation")

/-- A migration file on disk: its name (sans `.py`) and the operation
list its module defines. -/
structure MigFile where
  name : String
  operations : List MOperation

/-- The persistent state a `MigrationManager` run works on: the abstract
schema plus the `_migrations` ledger (names in insertion order, the
sole source of truth for "has this migration run"). -/
structure MigState (Db : Type) where
  db : Db
  ledger : List String

/-- `Migration.apply`: run every operation in declaration order, stopping
at the first failure. (The trailing `commit` does not change the
abstract schema state.) -/
def migrationApply {Db : Type} (engine : SchemaEngine Db) (operations : List MOperation)
    (db : Db) : Except String Db :=
  match operations with
  | [] => Except.ok db
  | op :: ops =>
    match op.apply engine db with
    | Except.ok db' => migrationApply engine ops db'
    | Except.error e => Except.error e

/-- The pending set `migrate` computes: the sorted migration files whose
names have no ledger row. -/
def pendingOf {Db : Type} (files : List MigFile) (st : MigState Db) : List MigFile :=
  files.filter (fun f => !st.ledger.contains f.name)

/-- Insertion of one file name into the name-sorted listing
(`sorted(os.listdir(...))`). -/
def insertSorted (f : MigFile) : List MigFile → List MigFile
  | [] => [f]
  | g :: gs => if f.name ≤ g.name then f :: g :: gs else g :: insertSorted f gs

/-- The name-sorted migration file listing. -/
def sortedFiles : List MigFile → List MigFile
  | [] => []
  | f :: fs => insertSorted f (sortedFiles fs)

/-- The loop body of `MigrationManager.migrate` over the pending list:
apply each migration and append its ledger row
(`mark_migration_applied`); a failing migration surfaces
`MigrationError` and halts the run. -/
def migrateLoop {Db : Type} (engine : SchemaEngine Db) :
    List MigFile → MigState Db → Except OrmError (MigState Db)
  | [], st => Except.ok st
  | f :: fs, st =>
    match migrationApply engine f.operations st.db with
    | Except.ok db' =>
        migrateLoop engine fs { db := db', ledger := st.ledger ++ [f.name] }
    | Except.error e =>
        Except.error (OrmError.migrationError ("Migration failed: " ++ e))

/-- `MigrationManager.migrate`: sort the migration files, drop the ones
already in the ledger, and apply the pending rest in order; with nothing
pending the state is returned untouched. (`create_migrations_table`
issues `CREATE TABLE IF NOT EXISTS` for the ledger, a no-op on the
modelled state in which the ledger always exists.) -/
def migrate {Db : Type} (engine : SchemaEngine Db) (files : List MigFile)
    (st : MigState Db) : Except OrmError (MigState Db) :=
  if (pendingOf (sortedFiles files) st).isEmpty then Except.ok st
  else migrateLoop engine (pendingOf (sortedFiles files) st) st

/-- Number of `?` placeholder characters in a statement text. -/
def countQ (s : String) : Nat :=
  s.data.count '?'

/-- The string is free of the `?` placeholder character (true of every
SQL identifier reachable from Python keyword arguments). -/
def qmFree (s : String) : Prop :=
  '?' ∉ s.data

instance (s : String) : Decidable (qmFree s) :=
  inferInstanceAs (Decidable ('?' ∉ s.data))

/-! ## Concrete example states used to instantiate the theorems -/

/-- A small example model (`class User(Model)` with an id, a name and an
age column). -/
def exModel : ModelDesc :=
  { name := "User", _table_name := "users",
    fields := [("id", "id"), ("name", "name"), ("age", "age")] }

/-- The root builder `User.objects` for the example model. -/
def baseQS : QuerySet :=
  { model := exModel }

/-- A builder exercising every special operator class at once:
equality/comparison, text search, `in`, a two-element `range`, `isnull`,
exclusions, ordering and paging. -/
def mixedQS : QuerySet :=
  { model := exModel
    _filters := [("age", "gte", Value.int 18),
                 ("name", "contains", Value.str "li"),
                 ("id", "in", Value.list [Value.int 1, Value.int 2, Value.int 3]),
                 ("age", "range", Value.list [Value.int 20, Value.int 30]),
                 ("name", "isnull", Value.bool false)]
    _excludes := [("name", "in", Value.list [Value.str "root", Value.str "admin"]),
                  ("age", "isnull", Value.bool true),
                  ("name", "startswith", Value.str "z")]
    _order_by := ["-age", "name"]
    _limit := some 10
    _offset := some 5 }

/-- A builder whose only filter is a three-element `range` lookup,
a state Python reaches via `filter(age__range=(18, 30, 40))`. -/
def rangeTripleQS : QuerySet :=
  { model := exModel
    _filters := [("age", "range", Value.list [Value.int 18, Value.int 30, Value.int 40])] }

/-- An example `users` row. -/
def exRow : Row :=
  [("id", Value.int 1), ("name", Value.str "alice"), ("age", Value.int 30)]

/-- A second example `users` row sharing the non-unique `age` value. -/
def exRow2 : Row :=
  [("id", Value.int 2), ("name", Value.str "bob"), ("age", Value.int 30)]

/-- An example migrations directory holding one initial migration. -/
def exMigFiles : List MigFile :=
  [{ name := "0001_init",
     operations := [MOperation.createTable "users"
       [("id", "INTEGER PRIMARY KEY AUTOINCREMENT"), ("name", "VARCHAR(100)")]] }]

/-! ## Helper lemmas -/

theorem countQ_append (a b : String) : countQ (a ++ b) = countQ a + countQ b := by
  simp [countQ, String.data_append, List.count_append]

theorem countQ_of_qmFree {s : String} (h : qmFree s) : countQ s = 0 :=
  List.count_eq_zero.mpr h

theorem qmFree_pyDrop1 {s : String} (h : qmFree s) : qmFree (pyDrop1 s) :=
  fun hm => h (List.drop_subset 1 s.data hm)

theorem countQ_pyJoin {sep : String} (hsep : qmFree sep) :
    ∀ l : List String, countQ (pyJoin sep l) = (l.map countQ).sum := by
  intro l
  induction l with
  | nil => simp [pyJoin, countQ]
  | cons s ss ih =>
    cases ss with
    | nil => simp [pyJoin]
    | cons s' ss' =>
      simp only [pyJoin, List.map_cons, List.sum_cons] at ih ⊢
      rw [countQ_append, countQ_append, countQ_of_qmFree hsep, ih]
      ring

theorem countQ_placeholdersFor (n : Nat) : countQ (placeholdersFor n) = n := by
  have h : qmFree "," := by decide
  have h1 : countQ "?" = 1 := by decide
  rw [placeholdersFor, countQ_pyJoin h]
  simp [List.map_replicate, h1]

theorem qmFree_get_operator_sql (operator : String) :
    qmFree (get_operator_sql operator) := by
  unfold get_operator_sql
  split
  · next kv h =>
      have hm := List.mem_of_find?_eq_some h
      have hall : ∀ kv ∈ operatorsTable, qmFree kv.2 := by decide
      exact hall kv hm
  · decide

theorem countQ_filterCondition (f op : String) (v : Value) (hf : qmFree f)
    (hrange : op = "range" → (valueElems v).length = 2) :
    countQ (filterCondition (f, op, v)).1 = ((filterCondition (f, op, v)).2).length := by
  have hf0 := countQ_of_qmFree hf
  have hop0 := countQ_of_qmFree (qmFree_get_operator_sql op)
  have c1 : countQ " IS NULL" = 0 := by decide
  have c2 : countQ " IS NOT NULL" = 0 := by decide
  have c3 : countQ " " = 0 := by decide
  have c4 : countQ " (" = 0 := by decide
  have c5 : countQ ")" = 0 := by decide
  have c6 : countQ " BETWEEN ? AND ?" = 2 := by decide
  have c7 : countQ " ?" = 1 := by decide
  have c9 : countQ (get_operator_sql "in") = 0 := by decide
  unfold filterCondition
  by_cases h1 : op = "isnull"
  · by_cases h2 : pyTruthy v <;>
      simp [h1, h2, countQ_append, hf0, c1, c2]
  · by_cases h2 : op = "in"
    · simp [h1, h2, countQ_append, hf0, c9, c3, c4, c5, countQ_placeholdersFor]
    · by_cases h3 : op = "range"
      · simp [h1, h2, h3, countQ_append, hf0, c6, hrange h3]
      · simp [h1, h2, h3, countQ_append, hf0, hop0, c3, c7]

theorem countQ_excludeCondition (f op : String) (v : Value) (hf : qmFree f) :
    countQ (excludeCondition (f, op, v)).1 = ((excludeCondition (f, op, v)).2).length := by
  have hf0 := countQ_of_qmFree hf
  have hop0 := countQ_of_qmFree (qmFree_get_operator_sql op)
  have c1 : countQ " IS NULL" = 0 := by decide
  have c2 : countQ " IS NOT NULL" = 0 := by decide
  have c3 : countQ " NOT " = 0 := by decide
  have c4 : countQ " (" = 0 := by decide
  have c5 : countQ ")" = 0 := by decide
  have c6 : countQ "NOT (" = 0 := by decide
  have c7 : countQ " ?)" = 1 := by decide
  have c8 : countQ " " = 0 := by decide
  have c9 : countQ (get_operator_sql "in") = 0 := by decide
  unfold excludeCondition
  by_cases h1 : op = "isnull"
  · by_cases h2 : pyTruthy v <;>
      simp [h1, h2, countQ_append, hf0, c1, c2]
  · by_cases h2 : op = "in"
    · simp [h1, h2, countQ_append, hf0, c9, c3, c4, c5, countQ_placeholdersFor]
    · simp [h1, h2, countQ_append, hf0, hop0, c6, c7, c8]

theorem buildConditions_eq (build : String × String × Value → String × List Value)
    (ts : List (String × String × Value)) :
    buildConditions build ts =
      (ts.map (fun t => (build t).1), ts.flatMap (fun t => (build t).2)) := by
  induction ts with
  | nil => simp [buildConditions]
  | cons t ts ih => simp [buildConditions, ih]

theorem digitChar_ne_qm (n : Nat) : Nat.digitChar n ≠ '?' := by
  rcases Nat.lt_or_ge n 16 with h | h
  · interval_cases n <;> decide
  · unfold Nat.digitChar
    repeat rw [if_neg (by omega)]
    decide

theorem toDigitsCore_keep (b fuel n : Nat) (ds : List Char) (h : '?' ∉ ds) :
    '?' ∉ Nat.toDigitsCore b fuel n ds := by
  induction fuel generalizing n ds with
  | zero => simpa [Nat.toDigitsCore] using h
  | succ fuel ih =>
    have hd : '?' ∉ Nat.digitChar (n % b) :: ds := by
      intro hm
      rcases List.mem_cons.mp hm with h1 | h1
      · exact digitChar_ne_qm (n % b) h1.symm
      · exact h h1
    simp only [Nat.toDigitsCore]
    split
    · exact hd
    · exact ih _ _ hd

/-- The decimal rendering of an integer (`LIMIT`/`OFFSET` bounds) never
contains a `?` character. -/
theorem qmFree_int_toString (n : Int) : qmFree (toString n) := by
  have hn : ∀ m : Nat, '?' ∉ (Nat.repr m).data := by
    intro m
    show '?' ∉ (Nat.toDigits 10 m).asString.data
    simpa [Nat.toDigits, List.asString] using toDigitsCore_keep 10 (m + 1) m [] (by simp)
  cases n with
  | ofNat m => simpa [qmFree, toString, Int.repr] using hn m
  | negSucc m =>
    show '?' ∉ (Int.repr (Int.negSucc m)).data
    simp [Int.repr, String.data_append]
    exact hn (m + 1)

/-- The where clause in closed form: conditions listed filters-first, and
the parameter list is the concatenation of each filter's parameters in
declaration order followed by each exclusion's. -/
theorem build_where_clause_eq (qs : QuerySet) :
    qs._build_where_clause =
      (let conds := qs._filters.map (fun t => (filterCondition t).1) ++
                    qs._excludes.map (fun t => (excludeCondition t).1)
       if conds.isEmpty then "" else " WHERE " ++ pyJoin " AND " conds,
       qs._filters.flatMap (fun t => (filterCondition t).2) ++
       qs._excludes.flatMap (fun t => (excludeCondition t).2)) := by
  simp only [QuerySet._build_where_clause, buildConditions_eq]
  split <;> rfl

theorem countQ_build_where_clause (qs : QuerySet)
    (hf : ∀ t ∈ qs._filters, qmFree t.1)
    (he : ∀ t ∈ qs._excludes, qmFree t.1)
    (hrange : ∀ t ∈ qs._filters, t.2.1 = "range" → (valueElems t.2.2).length = 2) :
    countQ qs._build_where_clause.1 = qs._build_where_clause.2.length := by
  have hAND : qmFree " AND " := by decide
  have hWH : countQ " WHERE " = 0 := by decide
  have hfc : ∀ t ∈ qs._filters, countQ (filterCondition t).1 = ((filterCondition t).2).length := by
    intro t ht
    obtain ⟨f, op, v⟩ := t
    exact countQ_filterCondition f op v (hf _ ht) (hrange _ ht)
  have hec : ∀ t ∈ qs._excludes,
      countQ (excludeCondition t).1 = ((excludeCondition t).2).length := by
    intro t ht
    obtain ⟨f, op, v⟩ := t
    exact countQ_excludeCondition f op v (he _ ht)
  rw [build_where_clause_eq]
  simp only []
  split
  · next hE =>
      rw [List.isEmpty_iff, List.append_eq_nil, List.map_eq_nil_iff, List.map_eq_nil_iff] at hE
      simp [hE.1, hE.2, countQ]
  · rw [countQ_append, hWH, countQ_pyJoin hAND]
    rw [List.map_append, List.map_map, List.map_map, List.sum_append]
    rw [List.length_append, List.flatMap_def, List.length_flatten, List.map_map,
        List.flatMap_def, List.length_flatten, List.map_map]
    have h1 : qs._filters.map (countQ ∘ fun t => (filterCondition t).1) =
        qs._filters.map (List.length ∘ fun t => (filterCondition t).2) :=
      List.map_congr_left (fun t ht => hfc t ht)
    have h2 : qs._excludes.map (countQ ∘ fun t => (excludeCondition t).1) =
        qs._excludes.map (List.length ∘ fun t => (excludeCondition t).2) :=
      List.map_congr_left (fun t ht => hec t ht)
    rw [h1, h2]
    simp

theorem countQ_select_fields (qs : QuerySet)
    (hv : ∀ fs, qs._values_fields = some fs → ∀ f ∈ fs, qmFree f) :
    countQ qs.select_fields = 0 := by
  have hsep : qmFree ", " := by decide
  unfold QuerySet.select_fields
  split
  · next fs f hfs =>
      rw [countQ_pyJoin hsep]
      have : ∀ g ∈ fs :: f, countQ g = 0 := fun g hg =>
        countQ_of_qmFree (hv (fs :: f) hfs g hg)
      rw [List.map_congr_left (fun g hg => this g hg)]
      simp [List.sum_eq_zero]
  · decide

theorem countQ_orderPart {f : String} (hf : qmFree f) : countQ (orderPart f) = 0 := by
  have hd : countQ " DESC" = 0 := by decide
  have ha : countQ " ASC" = 0 := by decide
  unfold orderPart
  split
  · rw [countQ_append, hd, countQ_of_qmFree (qmFree_pyDrop1 hf)]
  · rw [countQ_append, ha, countQ_of_qmFree hf]

theorem countQ_orderClause (qs : QuerySet) (h : ∀ f ∈ qs._order_by, qmFree f) :
    countQ qs.orderClause = 0 := by
  have hsep : qmFree ", " := by decide
  have hob : countQ " ORDER BY " = 0 := by decide
  unfold QuerySet.orderClause
  split
  · decide
  · rw [countQ_append, hob, countQ_pyJoin hsep, List.map_map]
    have : ∀ f ∈ qs._order_by, (countQ ∘ orderPart) f = 0 := fun f hf =>
      countQ_orderPart (h f hf)
    rw [List.map_congr_left this]
    simp [List.sum_eq_zero]

theorem countQ_pagingClause (qs : QuerySet) : countQ qs.pagingClause = 0 := by
  have hl : countQ " LIMIT " = 0 := by decide
  have ho : countQ " OFFSET " = 0 := by decide
  unfold QuerySet.pagingClause
  rw [countQ_append]
  have h1 : countQ (match qs._limit with
      | some n => " LIMIT " ++ toString n
      | none => "") = 0 := by
    cases qs._limit with
    | none => decide
    | some n => rw [countQ_append, hl, countQ_of_qmFree (qmFree_int_toString n)]
  have h2 : countQ (match qs._offset with
      | some n => " OFFSET " ++ toString n
      | none => "") = 0 := by
    cases qs._offset with
    | none => decide
    | some n => rw [countQ_append, ho, countQ_of_qmFree (qmFree_int_toString n)]
  omega

/-! ## Claim theorems -/

/-- C1 (amended): for every builder state whose SQL identifiers (table
name, filter/exclusion field names, ordering fields, projection fields)
are free of the `?` character, whose `in`/`range` values are iterable
(Python raises `TypeError` before producing a statement otherwise), and
whose every `range` value has exactly two elements, the synthesized SQL
statement contains exactly as many `?` placeholders as the parameter
list has elements, and the parameter list is the concatenation of the
filters' parameters in declaration order followed by the exclusions'
parameters in declaration order. (The two-element restriction on
`range` is forced: see the counterexample.) -/
theorem c1_placeholders_match_params (qs : QuerySet)
    (htab : qmFree qs.model._table_name)
    (hf : ∀ t ∈ qs._filters, qmFree t.1)
    (he : ∀ t ∈ qs._excludes, qmFree t.1)
    (hord : ∀ f ∈ qs._order_by, qmFree f)
    (hv : ∀ fs, qs._values_fields = some fs → ∀ f ∈ fs, qmFree f)
    (hiter : ∀ t ∈ qs._filters ++ qs._excludes, t.2.1 = "in" → isIterable t.2.2 = true)
    (hrange : ∀ t ∈ qs._filters, t.2.1 = "range" → (valueElems t.2.2).length = 2) :
    countQ qs._build_sql.1 = qs._build_sql.2.length ∧
    qs._build_sql.2 =
      qs._filters.flatMap (fun t => (filterCondition t).2) ++
      qs._excludes.flatMap (fun t => (excludeCondition t).2) := by
  have hhead : countQ (if qs._distinct
      then "SELECT DISTINCT " ++ qs.select_fields ++ " FROM " ++ qs.model._table_name
      else "SELECT " ++ qs.select_fields ++ " FROM " ++ qs.model._table_name) = 0 := by
    have h1 : countQ "SELECT DISTINCT " = 0 := by decide
    have h2 : countQ "SELECT " = 0 := by decide
    have h3 : countQ " FROM " = 0 := by decide
    split <;>
      rw [countQ_append, countQ_append, countQ_append, countQ_select_fields qs hv,
          countQ_of_qmFree htab, h3] <;> simp [h1, h2]
  constructor
  · show countQ ((if qs._distinct
        then "SELECT DISTINCT " ++ qs.select_fields ++ " FROM " ++ qs.model._table_name
        else "SELECT " ++ qs.select_fields ++ " FROM " ++ qs.model._table_name) ++
        qs._build_where_clause.1 ++ qs.orderClause ++ qs.pagingClause) =
      qs._build_where_clause.2.length
    rw [countQ_append, countQ_append, countQ_append, hhead,
        countQ_build_where_clause qs hf he hrange, countQ_orderClause qs hord,
        countQ_pagingClause qs]
    omega
  · show qs._build_where_clause.2 = _
    rw [build_where_clause_eq]

/-- C1 counterexample: the claim fails as stated. The builder state
reached by `filter(age__range=(18, 30, 40))` synthesizes a statement
with exactly two `?` placeholders (`age BETWEEN ? AND ?`) but a
three-element parameter list, so placeholder count and parameter count
disagree. -/
theorem c1_counterexample :
    countQ rangeTripleQS._build_sql.1 = 2 ∧
    rangeTripleQS._build_sql.2.length = 3 ∧
    countQ rangeTripleQS._build_sql.1 ≠ rangeTripleQS._build_sql.2.length := by
  refine ⟨?_, ?_, ?_⟩ <;> decide

/-- C1 witness: the amended theorem applied to a concrete builder mixing
comparison, text-search, `in`, two-element `range` and `isnull` lookups
with exclusions, ordering and paging. -/
theorem c1_witness :
    countQ mixedQS._build_sql.1 = mixedQS._build_sql.2.length ∧
    mixedQS._build_sql.2 =
      mixedQS._filters.flatMap (fun t => (filterCondition t).2) ++
      mixedQS._excludes.flatMap (fun t => (excludeCondition t).2) :=
  c1_placeholders_match_params mixedQS (by decide) (by decide) (by decide)
    (by decide) (by decide) (by decide) (by decide)

/-- The built WHERE clause is the empty string exactly when both the
filter list and the exclusion list are empty. -/
theorem where_clause_empty_iff (qs : QuerySet) :
    qs._build_where_clause.1 = "" ↔ (qs._filters = [] ∧ qs._excludes = []) := by
  rw [build_where_clause_eq]
  simp only []
  split
  · next hE =>
      rw [List.isEmpty_iff, List.append_eq_nil, List.map_eq_nil_iff,
          List.map_eq_nil_iff] at hE
      simp [hE.1, hE.2]
  · next hE =>
      constructor
      · intro hcontra
        have hdata := congrArg String.data hcontra
        rw [String.data_append] at hdata
        simp at hdata
      · intro ⟨h1, h2⟩
        rw [h1, h2] at hE
        simp at hE

/-- C2: calling `delete()` on a builder with empty filter and exclusion
lists fails with `QueryError` and issues no statement to the connection
(the log is not extended); with at least one filter or exclusion present
it issues exactly one `DELETE` whose WHERE clause and parameter list are
the ones built from the filter/exclude state, followed by a commit. -/
theorem c2_delete_requires_filters (qs : QuerySet) (log : List LogEntry)
    (rowcount : String → List Value → Int) :
    (qs._filters = [] ∧ qs._excludes = [] →
      qs.delete log rowcount = Except.error (OrmError.queryError
        "Cannot delete without filters (use Model.objects.all().delete())")) ∧
    (qs._filters ≠ [] ∨ qs._excludes ≠ [] →
      qs.delete log rowcount = Except.ok
        (log ++ [LogEntry.exec ("DELETE FROM " ++ qs.model._table_name ++
                    qs._build_where_clause.1) qs._build_where_clause.2,
                 LogEntry.commit],
         rowcount ("DELETE FROM " ++ qs.model._table_name ++ qs._build_where_clause.1)
           qs._build_where_clause.2)) := by
  constructor
  · intro h
    have hw : qs._build_where_clause.1 = "" := (where_clause_empty_iff qs).mpr h
    simp [QuerySet.delete, hw]
  · intro h
    have hw : ¬(qs._build_where_clause.1 = "") := by
      intro hh
      rcases (where_clause_empty_iff qs).mp hh with ⟨h1, h2⟩
      rcases h with h | h <;> contradiction
    simp [QuerySet.delete, hw]

/-- C2 witness: on the unfiltered root builder `delete()` yields the
`QueryError` with an untouched log, and on a filtered builder it yields
the logged `DELETE`. -/
theorem c2_witness :
    baseQS.delete [] (fun _ _ => Int.ofNat 0) = Except.error (OrmError.queryError
      "Cannot delete without filters (use Model.objects.all().delete())") ∧
    mixedQS.delete [] (fun _ _ => Int.ofNat 0) = Except.ok
      ([LogEntry.exec ("DELETE FROM " ++ mixedQS.model._table_name ++
          mixedQS._build_where_clause.1) mixedQS._build_where_clause.2,
        LogEntry.commit], Int.ofNat 0) := by
  constructor
  · exact (c2_delete_requires_filters baseQS [] (fun _ _ => Int.ofNat 0)).1 ⟨rfl, rfl⟩
  · have h := (c2_delete_requires_filters mixedQS [] (fun _ _ => Int.ofNat 0)).2
      (Or.inl (by simp [mixedQS]))
    simpa using h

/-- C3: `get(lookups)` applies the lookups as filters and then branches on
the cardinality of the resulting row set: zero rows fail with
`DoesNotExist`, more than one row fails with `MultipleObjectsReturned`,
and exactly one row is returned as that row's instance. Quantified over
every engine behaviour, so over every possible row set. -/
theorem c3_get_cardinality (qs : QuerySet) (kwargs : List (String × Value))
    (engine : Engine) :
    ((qs.filter kwargs).all engine = [] →
      qs.get kwargs engine = Except.error (OrmError.doesNotExist
        (qs.model.name ++ " matching query does not exist"))) ∧
    (((qs.filter kwargs).all engine).length > 1 →
      qs.get kwargs engine = Except.error (OrmError.multipleObjectsReturned
        ("get() returned " ++ toString ((qs.filter kwargs).all engine).length ++
         " " ++ qs.model.name ++ " objects"))) ∧
    (∀ r, (qs.filter kwargs).all engine = [r] →
      qs.get kwargs engine = Except.ok r) := by
  refine ⟨?_, ?_, ?_⟩
  · intro h
    simp [QuerySet.get, h]
  · intro h
    have h0 : ¬(((qs.filter kwargs).all engine).length = 0) := by omega
    simp [QuerySet.get, h0, h]
  · intro r h
    simp [QuerySet.get, h]

/-- C3 witness: with an engine returning no rows `get(id=999)` raises
`DoesNotExist`; with two rows sharing a non-unique value it raises
`MultipleObjectsReturned`; with exactly one row it returns that row's
instance. -/
theorem c3_witness :
    baseQS.get [("id", Value.int 999)] (fun _ _ => []) =
      Except.error (OrmError.doesNotExist "User matching query does not exist") ∧
    baseQS.get [("age", Value.int 30)] (fun _ _ => [exRow, exRow2]) =
      Except.error (OrmError.multipleObjectsReturned "get() returned 2 User objects") ∧
    baseQS.get [("id", Value.int 1)] (fun _ _ => [exRow]) = Except.ok exRow := by
  refine ⟨?_, ?_, ?_⟩
  · exact (c3_get_cardinality baseQS [("id", Value.int 999)] (fun _ _ => [])).1 rfl
  · exact (c3_get_cardinality baseQS [("age", Value.int 30)]
      (fun _ _ => [exRow, exRow2])).2.1 (by decide)
  · exact (c3_get_cardinality baseQS [("id", Value.int 1)]
      (fun _ _ => [exRow])).2.2 exRow rfl

/-- C4: in the synthesized WHERE clause an exclusion with the `in`
operator produces the inverted-comparator membership test `NOT IN` with
one placeholder per element; an exclusion with `isnull` produces the
flipped NULL test (`IS NOT NULL` for a truthy value, `IS NULL`
otherwise) with no placeholder; an exclusion with any other operator
wraps the whole comparison in a generic negation `NOT (field op ?)` with
a single placeholder; and a singleton-exclusion builder's WHERE clause
is exactly that condition. -/
theorem c4_exclusion_operators (f op : String) (v : Value) (l : List Value)
    (hf : qmFree f) :
    (excludeCondition (f, "in", Value.list l) =
      (f ++ " NOT " ++ "IN" ++ " (" ++ placeholdersFor l.length ++ ")", l)) ∧
    countQ (excludeCondition (f, "in", Value.list l)).1 = l.length ∧
    (pyTruthy v = true →
      excludeCondition (f, "isnull", v) = (f ++ " IS NOT NULL", [])) ∧
    (pyTruthy v = false →
      excludeCondition (f, "isnull", v) = (f ++ " IS NULL", [])) ∧
    countQ (excludeCondition (f, "isnull", v)).1 = 0 ∧
    (op ≠ "in" → op ≠ "isnull" →
      excludeCondition (f, op, v) =
        ("NOT (" ++ f ++ " " ++ get_operator_sql op ++ " ?)",
         [format_value_for_operator v op]) ∧
      countQ (excludeCondition (f, op, v)).1 = 1) ∧
    (∀ m : ModelDesc,
      QuerySet._build_where_clause { model := m, _excludes := [(f, op, v)] } =
        (" WHERE " ++ (excludeCondition (f, op, v)).1, (excludeCondition (f, op, v)).2)) := by
  refine ⟨?_, ?_, ?_, ?_, ?_, ?_, ?_⟩
  · have hop : get_operator_sql "in" = "IN" := by decide
    simp [excludeCondition, valueElems, hop]
  · exact (countQ_excludeCondition f "in" (Value.list l) hf).trans rfl
  · intro h
    simp [excludeCondition, h]
  · intro h
    simp [excludeCondition, h]
  · have h := countQ_excludeCondition f "isnull" v hf
    rw [h]
    by_cases ht : pyTruthy v <;> simp [excludeCondition, ht]
  · intro h1 h2
    constructor
    · simp [excludeCondition, h1, h2]
    · exact (countQ_excludeCondition f op v hf).trans (by simp [excludeCondition, h1, h2])
  · intro m
    rw [build_where_clause_eq]
    simp [pyJoin]

/-- C4 witness: the characterization applied at `f = "name"`,
`op = "gte"`, a truthy and a falsy `isnull` value, and a two-element
`in` list. -/
theorem c4_witness :
    excludeCondition ("name", "in", Value.list [Value.str "root", Value.str "admin"]) =
      ("name" ++ " NOT " ++ "IN" ++ " (" ++ placeholdersFor 2 ++ ")",
       [Value.str "root", Value.str "admin"]) ∧
    excludeCondition ("name", "isnull", Value.bool true) = ("name" ++ " IS NOT NULL", []) ∧
    (excludeCondition ("name", "gte", Value.int 5) =
       ("NOT (" ++ "name" ++ " " ++ get_operator_sql "gte" ++ " ?)",
        [format_value_for_operator (Value.int 5) "gte"]) ∧
     countQ (excludeCondition ("name", "gte", Value.int 5)).1 = 1) := by
  refine ⟨?_, ?_, ?_⟩
  · exact (c4_exclusion_operators "name" "gte" (Value.bool true)
      [Value.str "root", Value.str "admin"] (by decide)).1
  · exact (c4_exclusion_operators "name" "gte" (Value.bool true)
      [Value.str "root", Value.str "admin"] (by decide)).2.2.1 rfl
  · exact (c4_exclusion_operators "name" "gte" (Value.int 5)
      [] (by decide)).2.2.2.2.2.1 (by decide) (by decide)

/-- A string extended on the left with `-` always starts with `-`. -/
theorem pyStartswith_dash (f : String) : pyStartswith ("-" ++ f) "-" = true := by
  have hd : ("-" ++ f).data = '-' :: f.data := by
    rw [String.data_append]
    rfl
  simp [pyStartswith, hd, List.isPrefixOf]

/-- Dropping the first character undoes a left `-` extension. -/
theorem pyDrop1_dash (f : String) : pyDrop1 ("-" ++ f) = f := by
  have hd : ("-" ++ f).data = '-' :: f.data := by
    rw [String.data_append]
    rfl
  apply String.ext
  simp [pyDrop1, hd]

/-- `last()` on an ordering consisting of the single descending entry
`-f` re-derives the ordering `[f]`. -/
theorem lastOrdering_single_desc (f : String) : lastOrdering ["-" ++ f] = [f] := by
  simp [lastOrdering, pyStartswith_dash, pyDrop1_dash]

/-- C5: on a builder whose only ordering is `order_by('-x')`, the SQL
statement and parameter list synthesized by `last()` equal those
synthesized by `first()` on the same builder with ordering
`order_by('x')` (stated for an arbitrary field name in place of `x`);
moreover with no ordering set `last()` behaves as `first()` against the
flipped primary-key ordering `-id`, and `last()`/`first()` synthesize
exactly the flip-ordered (resp. current) statement with limit 1. -/
theorem c5_last_first_flip (qs : QuerySet) :
    (∀ f : String,
      QuerySet.lastStmt { qs with _order_by := ["-" ++ f] } =
        QuerySet.firstStmt { qs with _order_by := [f] }) ∧
    (qs._order_by = [] →
      QuerySet.lastStmt qs = QuerySet.firstStmt { qs with _order_by := ["-id"] }) ∧
    QuerySet.lastStmt qs = ((qs.order_by (lastOrdering qs._order_by)).limit 1)._build_sql ∧
    QuerySet.firstStmt qs = (qs.limit 1)._build_sql := by
  refine ⟨?_, ?_, rfl, rfl⟩
  · intro f
    simp [QuerySet.lastStmt, QuerySet.firstStmt, lastOrdering_single_desc,
      QuerySet.order_by, QuerySet.limit, QuerySet._clone]
  · intro h
    have hlo : lastOrdering qs._order_by = ["-id"] := by
      rw [h]
      decide
    simp [QuerySet.lastStmt, QuerySet.firstStmt, hlo,
      QuerySet.order_by, QuerySet.limit, QuerySet._clone]

/-- C5 witness: the flip invariant evaluated on the example builder with
ordering `-age`, and the primary-key default on the root builder. -/
theorem c5_witness :
    QuerySet.lastStmt { baseQS with _order_by := ["-" ++ "age"] } =
      QuerySet.firstStmt { baseQS with _order_by := ["age"] } ∧
    QuerySet.lastStmt baseQS = QuerySet.firstStmt { baseQS with _order_by := ["-id"] } := by
  constructor
  · exact (c5_last_first_flip baseQS).1 "age"
  · exact (c5_last_first_flip baseQS).2.1 rfl

/-- C6: every chaining operation (filter, exclude, order_by, limit,
offset, distinct, values, select_related) produces a new builder whose
result cache is empty — regardless of whether the receiver's cache was
populated — and whose state fields other than the one the operation
targets are copies of the receiver's. (In this embedding the operations
are pure functions of the receiver value, which is therefore never
mutated; the conjuncts below are the content of the `_clone`-based
copy-on-write discipline.) -/
theorem c6_chaining_copy_on_write (qs : QuerySet) (kwargs : List (String × Value))
    (fields : List String) (n : Int) :
    ((qs.filter kwargs)._cache = none ∧
     (qs.filter kwargs).model = qs.model ∧
     (qs.filter kwargs)._excludes = qs._excludes ∧
     (qs.filter kwargs)._order_by = qs._order_by ∧
     (qs.filter kwargs)._limit = qs._limit ∧
     (qs.filter kwargs)._offset = qs._offset ∧
     (qs.filter kwargs)._select_related = qs._select_related ∧
     (qs.filter kwargs)._distinct = qs._distinct ∧
     (qs.filter kwargs)._values_fields = qs._values_fields) ∧
    ((qs.exclude kwargs)._cache = none ∧
     (qs.exclude kwargs).model = qs.model ∧
     (qs.exclude kwargs)._filters = qs._filters ∧
     (qs.exclude kwargs)._order_by = qs._order_by ∧
     (qs.exclude kwargs)._limit = qs._limit ∧
     (qs.exclude kwargs)._offset = qs._offset ∧
     (qs.exclude kwargs)._select_related = qs._select_related ∧
     (qs.exclude kwargs)._distinct = qs._distinct ∧
     (qs.exclude kwargs)._values_fields = qs._values_fields) ∧
    ((qs.order_by fields)._cache = none ∧
     (qs.order_by fields).model = qs.model ∧
     (qs.order_by fields)._filters = qs._filters ∧
     (qs.order_by fields)._excludes = qs._excludes ∧
     (qs.order_by fields)._limit = qs._limit ∧
     (qs.order_by fields)._offset = qs._offset ∧
     (qs.order_by fields)._select_related = qs._select_related ∧
     (qs.order_by fields)._distinct = qs._distinct ∧
     (qs.order_by fields)._values_fields = qs._values_fields) ∧
    ((qs.limit n)._cache = none ∧
     (qs.limit n).model = qs.model ∧
     (qs.limit n)._filters = qs._filters ∧
     (qs.limit n)._excludes = qs._excludes ∧
     (qs.limit n)._order_by = qs._order_by ∧
     (qs.limit n)._offset = qs._offset ∧
     (qs.limit n)._select_related = qs._select_related ∧
     (qs.limit n)._distinct = qs._distinct ∧
     (qs.limit n)._values_fields = qs._values_fields) ∧
    ((qs.offset n)._cache = none ∧
     (qs.offset n).model = qs.model ∧
     (qs.offset n)._filters = qs._filters ∧
     (qs.offset n)._excludes = qs._excludes ∧
     (qs.offset n)._order_by = qs._order_by ∧
     (qs.offset n)._limit = qs._limit ∧
     (qs.offset n)._select_related = qs._select_related ∧
     (qs.offset n)._distinct = qs._distinct ∧
     (qs.offset n)._values_fields = qs._values_fields) ∧
    (qs.distinct._cache = none ∧
     qs.distinct.model = qs.model ∧
     qs.distinct._filters = qs._filters ∧
     qs.distinct._excludes = qs._excludes ∧
     qs.distinct._order_by = qs._order_by ∧
     qs.distinct._limit = qs._limit ∧
     qs.distinct._offset = qs._offset ∧
     qs.distinct._select_related = qs._select_related ∧
     qs.distinct._values_fields = qs._values_fields) ∧
    ((qs.values fields)._cache = none ∧
     (qs.values fields).model = qs.model ∧
     (qs.values fields)._filters = qs._filters ∧
     (qs.values fields)._excludes = qs._excludes ∧
     (qs.values fields)._order_by = qs._order_by ∧
     (qs.values fields)._limit = qs._limit ∧
     (qs.values fields)._offset = qs._offset ∧
     (qs.values fields)._select_related = qs._select_related ∧
     (qs.values fields)._distinct = qs._distinct) ∧
    ((qs.select_related fields)._cache = none ∧
     (qs.select_related fields).model = qs.model ∧
     (qs.select_related fields)._filters = qs._filters ∧
     (qs.select_related fields)._excludes = qs._excludes ∧
     (qs.select_related fields)._order_by = qs._order_by ∧
     (qs.select_related fields)._limit = qs._limit ∧
     (qs.select_related fields)._offset = qs._offset ∧
     (qs.select_related fields)._distinct = qs._distinct ∧
     (qs.select_related fields)._values_fields = qs._values_fields) := by
  repeat' constructor

/-- `str.replace(old, new, 1)` with the pattern at the front replaces
exactly that prefix. -/
theorem listReplaceFirst_prefix (pat sub rest : List Char) (h : pat ≠ []) :
    listReplaceFirst pat sub (pat ++ rest) = sub ++ rest := by
  match pat, h with
  | p :: ps, _ =>
    have hpre : (p :: ps).isPrefixOf ((p :: ps) ++ rest) = true := by
      rw [List.isPrefixOf_iff_prefix]
      exact List.prefix_append _ _
    rw [List.cons_append, listReplaceFirst, ← List.cons_append, hpre]
    simp [List.drop_left]

/-- C7 (amended): `exists()` rewrites the first occurrence of the literal
text `SELECT *`, so the projection is replaced by the constant literal
`SELECT 1` exactly on builders whose statement carries the default
projection without `DISTINCT`; for such builders the executed statement
is `SELECT 1` against the same FROM/WHERE/ORDER/paging tail with the
same parameters, and for every builder and engine `exists()` returns
true exactly when the engine finds at least one row for the executed
statement. (Builders with the distinct flag or a `values(...)`
projection run their statement unreplaced: see the counterexample.) -/
theorem c7_exists_constant_projection (qs : QuerySet)
    (hd : qs._distinct = false) (hv : qs.select_fields = "*") :
    QuerySet.existsSql qs =
      "SELECT 1" ++ (" FROM " ++ qs.model._table_name ++ qs._build_where_clause.1 ++
        qs.orderClause ++ qs.pagingClause) ∧
    qs._build_sql.2 = qs._build_where_clause.2 ∧
    (∀ engine : Engine,
      qs.exists? engine = true ↔ engine qs.existsSql qs._build_sql.2 ≠ []) := by
  have key : ∀ X : String, "SELECT " ++ ("*" ++ X) = "SELECT *" ++ X := by
    intro X
    rw [← String.append_assoc]
    rfl
  have hsql : qs._build_sql.1 =
      "SELECT *" ++ (" FROM " ++ qs.model._table_name ++ qs._build_where_clause.1 ++
        qs.orderClause ++ qs.pagingClause) := by
    simp only [QuerySet._build_sql, hd, Bool.false_eq_true, if_false, hv,
      String.append_assoc]
    exact key _
  refine ⟨?_, rfl, ?_⟩
  · apply String.ext
    rw [QuerySet.existsSql, pyReplaceFirst, hsql]
    show listReplaceFirst _ _ _ = _
    rw [String.data_append, String.data_append,
        listReplaceFirst_prefix _ _ _ (by decide)]
    simp [String.data_append, List.append_assoc]
  · intro engine
    simp [QuerySet.exists?, List.isEmpty_iff]

/-- C7 counterexample: the claim fails as stated for a builder with the
distinct flag set. `User.objects.distinct()` synthesizes
`SELECT DISTINCT * FROM users`, which does not contain the literal
`SELECT *`, so `exists()` executes it with the projection unreplaced
rather than as `SELECT 1 FROM users`. -/
theorem c7_counterexample :
    QuerySet.existsSql baseQS.distinct = "SELECT DISTINCT * FROM users" ∧
    QuerySet.existsSql baseQS.distinct ≠ "SELECT 1 FROM users" := by
  constructor <;> decide

/-- C7 witness: the amended theorem applied to the mixed example builder
(default projection, no distinct flag). -/
theorem c7_witness :
    QuerySet.existsSql mixedQS =
      "SELECT 1" ++ (" FROM " ++ mixedQS.model._table_name ++
        mixedQS._build_where_clause.1 ++ mixedQS.orderClause ++ mixedQS.pagingClause) ∧
    (∀ engine : Engine,
      mixedQS.exists? engine = true ↔
        engine (QuerySet.existsSql mixedQS) mixedQS._build_sql.2 ≠ []) :=
  ⟨(c7_exists_constant_projection mixedQS rfl rfl).1,
   (c7_exists_constant_projection mixedQS rfl rfl).2.2⟩

/-- C8: for every `DropTable` and every `AddColumn` operation, on every
connection state and under every engine behaviour, `reverse` fails with
the `MigrationError` condition; the result is a literal error
independent of the engine, so no statement reaches the connection and
the schema state is unchanged. -/
theorem c8_irreversible_operations {Db : Type} (engine : SchemaEngine Db) (db : Db)
    (t c d : String) :
    MOperation.reverseRun engine (MOperation.dropTable t) db =
      Except.error (OrmError.migrationError
        "Cannot reverse DropTable operation without schema backup") ∧
    MOperation.reverseRun engine (MOperation.addColumn t c d) db =
      Except.error (OrmError.migrationError
        "Cannot reverse AddColumn - SQLite limitation") :=
  ⟨rfl, rfl⟩

/-- A successful run of the `migrate` loop appends exactly the processed
migration names to the ledger, in order. -/
theorem migrateLoop_ok_ledger {Db : Type} (engine : SchemaEngine Db) :
    ∀ (fs : List MigFile) (st st' : MigState Db),
      migrateLoop engine fs st = Except.ok st' →
      st'.ledger = st.ledger ++ fs.map (fun f => f.name) := by
  intro fs
  induction fs with
  | nil =>
    intro st st' h
    simp only [migrateLoop] at h
    cases h
    simp
  | cons f fs ih =>
    intro st st' h
    simp only [migrateLoop] at h
    rcases hap : migrationApply engine f.operations st.db with e | db'
    · rw [hap] at h
      cases h
    · rw [hap] at h
      have hrec := ih _ _ h
      simp only [hrec]
      simp

/-- C9: if `migrate()` completes without failure then every migration
file name is recorded in the ledger, so an immediate second `migrate()`
run over the same files computes an empty pending set and applies zero
additional migrations, returning the state unchanged. -/
theorem c9_migrate_idempotent {Db : Type} (engine : SchemaEngine Db)
    (files : List MigFile) (st st' : MigState Db)
    (h : migrate engine files st = Except.ok st') :
    pendingOf (sortedFiles files) st' = [] ∧
    migrate engine files st' = Except.ok st' := by
  have main : pendingOf (sortedFiles files) st' = [] := by
    unfold migrate at h
    split at h
    · next hp =>
      cases h
      rwa [List.isEmpty_iff] at hp
    · next hp =>
      have hl := migrateLoop_ok_ledger engine _ _ _ h
      have hmem : ∀ f ∈ sortedFiles files, f.name ∈ st'.ledger := by
        intro f hf
        rw [hl]
        by_cases hc : f.name ∈ st.ledger
        · exact List.mem_append_left _ hc
        · have hpend : f ∈ pendingOf (sortedFiles files) st := by
            rw [pendingOf, List.mem_filter]
            refine ⟨hf, ?_⟩
            simp [hc]
          exact List.mem_append_right _
            (List.mem_map.mpr ⟨f, hpend, rfl⟩)
      rw [pendingOf, List.filter_eq_nil_iff]
      intro f hf
      simp [hmem f hf]
  refine ⟨main, ?_⟩
  unfold migrate
  rw [if_pos (List.isEmpty_iff.mpr main)]

/-- C9 witness: a concrete first run over one migration file succeeds and
records its name; the second run's pending set is empty and the state is
returned unchanged. -/
theorem c9_witness :
    pendingOf (sortedFiles exMigFiles) (⟨0, ["0001_init"]⟩ : MigState Nat) = [] ∧
    migrate (fun _ db => Except.ok db) exMigFiles (⟨0, ["0001_init"]⟩ : MigState Nat) =
      Except.ok ⟨0, ["0001_init"]⟩ :=
  c9_migrate_idempotent (fun _ db => Except.ok db) exMigFiles ⟨0, []⟩ _ rfl

/-- C10: `count()` (and `__len__`, which delegates to it) issues
`SELECT COUNT(*)` combined with only the WHERE clause derived from the
filters and exclusions: two builders agreeing on model, filters and
exclusions issue the same counting statement whatever their limit,
offset, distinct, ordering, projection or cache state; and there is a
builder with limit 2 whose `count()` reports 5 while `all()` returns 2
rows. -/
theorem c10_count_ignores_paging :
    (∀ qs₁ qs₂ : QuerySet, qs₁.model = qs₂.model → qs₁._filters = qs₂._filters →
      qs₁._excludes = qs₂._excludes → QuerySet.countStmt qs₁ = QuerySet.countStmt qs₂) ∧
    (∀ (qs : QuerySet) (engine : Engine), qs.len engine = qs.count engine) ∧
    (∃ (qs : QuerySet) (engine : Engine),
      qs._limit = some 2 ∧ qs.count engine = Value.int 5 ∧
      (qs.all engine).length = 2) := by
  refine ⟨?_, fun _ _ => rfl, ?_⟩
  · intro qs₁ qs₂ hm hf he
    have hw : qs₁._build_where_clause = qs₂._build_where_clause := by
      unfold QuerySet._build_where_clause
      rw [hf, he]
    unfold QuerySet.countStmt
    rw [hw, hm]
  · refine ⟨{ baseQS with _limit := some 2 },
      fun sql _ => if sql = "SELECT COUNT(*) FROM users"
        then [[("COUNT(*)", Value.int 5)]] else [exRow, exRow2], rfl, ?_, ?_⟩ <;> rfl

/-- C10 witness: a builder with limit, offset, distinct, ordering and a
projection issues the very counting statement of the bare root
builder. -/
theorem c10_witness :
    QuerySet.countStmt
      { baseQS with
        _limit := some 2
        _offset := some 7
        _distinct := true
        _order_by := ["-id"]
        _values_fields := some ["name"] } =
      QuerySet.countStmt baseQS :=
  c10_count_ignores_paging.1 _ baseQS rfl rfl rfl
